import Mathlib

/-!
Verification of the Financial Analytics and Forecasting Engine
(data_loader.py, financial_analyzer.py, forecasting.py).

The engine operates on a pandas DataFrame of monthly Period records.  We embed
a DataFrame row as a `Period` of exact rationals and model the numpy scalar
arithmetic that the engine performs with `PyVal`: a rational extended with the
two infinities and NaN.  In numpy, dividing a scalar by zero emits a
RuntimeWarning (suppressed globally by forecasting.py) and evaluates to
inf, -inf or nan; it does not raise an exception.  Accessing `df.iloc[-1]` on an
empty frame does raise (IndexError), which we model with an explicit error
channel (`FinError`).
-/

/-- A numpy-style scalar: a finite rational, an infinity, or NaN. -/
inductive PyVal where
  | fin (q : ℚ)
  | inf
  | ninf
  | nan
  deriving Repr, DecidableEq, Inhabited

namespace PyVal

def neg : PyVal → PyVal
  | fin q => fin (-q)
  | inf => ninf
  | ninf => inf
  | nan => nan

def add : PyVal → PyVal → PyVal
  | nan, _ => nan
  | _, nan => nan
  | fin a, fin b => fin (a + b)
  | fin _, inf => inf
  | fin _, ninf => ninf
  | inf, fin _ => inf
  | ninf, fin _ => ninf
  | inf, inf => inf
  | ninf, ninf => ninf
  | inf, ninf => nan
  | ninf, inf => nan

def sub (a b : PyVal) : PyVal := a.add b.neg

def mul : PyVal → PyVal → PyVal
  | nan, _ => nan
  | _, nan => nan
  | fin a, fin b => fin (a * b)
  | fin a, inf => if 0 < a then inf else if a < 0 then ninf else nan
  | inf, fin a => if 0 < a then inf else if a < 0 then ninf else nan
  | fin a, ninf => if 0 < a then ninf else if a < 0 then inf else nan
  | ninf, fin a => if 0 < a then ninf else if a < 0 then inf else nan
  | inf, inf => inf
  | inf, ninf => ninf
  | ninf, inf => ninf
  | ninf, ninf => inf

/-- numpy true division: a zero divisor yields an infinity (or NaN for 0/0)
together with a RuntimeWarning, never an exception. -/
def div : PyVal → PyVal → PyVal
  | nan, _ => nan
  | _, nan => nan
  | fin a, fin b =>
      if b ≠ 0 then fin (a / b)
      else if 0 < a then inf else if a < 0 then ninf else nan
  | fin _, inf => fin 0
  | fin _, ninf => fin 0
  | inf, fin b => if 0 ≤ b then inf else ninf
  | ninf, fin b => if 0 ≤ b then ninf else inf
  | inf, inf => nan
  | inf, ninf => nan
  | ninf, inf => nan
  | ninf, ninf => nan

/-- Integer power, as used by the fallback forecast ((1+g) ** (i+1)). -/
def pow (v : PyVal) : ℕ → PyVal
  | 0 => fin 1
  | n + 1 => v.mul (v.pow n)

def isFin : PyVal → Bool
  | fin _ => true
  | _ => false

def isNan : PyVal → Bool
  | nan => true
  | _ => false

/-- Python comparison v >= c (False whenever v is NaN). -/
def geQ (v : PyVal) (c : ℚ) : Bool :=
  match v with
  | fin q => c ≤ q
  | inf => true
  | ninf => false
  | nan => false

/-- Python comparison v <= c (False whenever v is NaN). -/
def leQ (v : PyVal) (c : ℚ) : Bool :=
  match v with
  | fin q => q ≤ c
  | inf => false
  | ninf => true
  | nan => false

end PyVal

/-- Round to the nearest integer, ties to even: the rounding used by Python
round() on numpy floats. -/
def roundHalfEven (q : ℚ) : ℤ :=
  let n := ⌊q⌋
  let r := q - n
  if r < 1 / 2 then n
  else if 1 / 2 < r then n + 1
  else if n % 2 = 0 then n else n + 1

/-- round(x, 2) on a finite value. -/
def round2q (q : ℚ) : ℚ := (roundHalfEven (q * 100) : ℚ) / 100

/-- round(x, 2): finite values round to 2 decimals; inf and NaN pass through. -/
def PyVal.round2 : PyVal → PyVal
  | PyVal.fin q => PyVal.fin (round2q q)
  | v => v

/-- One monthly row of the loaded DataFrame: raw financial facts plus the
columns derived at load time (margins, EBITDA) and the date-derived year.
Only the columns read by the functions under proof are carried. -/
structure Period where
  year : ℕ
  revenue : ℚ
  gross_profit : ℚ
  operating_income : ℚ
  net_income : ℚ
  ebitda : ℚ
  total_assets : ℚ
  total_liabilities : ℚ
  total_equity : ℚ
  cash : ℚ
  current_assets : ℚ
  current_liabilities : ℚ
  inventory : ℚ
  interest_expense : ℚ
  long_term_debt : ℚ
  gross_margin : ℚ
  operating_margin : ℚ
  net_margin : ℚ
  ebitda_margin : ℚ
  deriving Repr, DecidableEq, Inhabited

/-- The failures the engine can surface: an empty series where a latest
period is required (IndexError from df.iloc[-1]), and the ratio-undefined
condition named by the specification taxonomy. -/
inductive FinError where
  | insufficientData
  | ratioUndefined
  deriving Repr, DecidableEq

/-! ## Ratio and KPI engine (financial_analyzer.py) -/

/-- The KPI map returned by calculate_kpis. -/
structure KPIs where
  total_revenue : ℚ
  revenue_change : PyVal
  gross_profit : ℚ
  gross_margin : ℚ
  operating_income : ℚ
  operating_margin : ℚ
  net_income : ℚ
  net_income_change : PyVal
  net_margin : ℚ
  ebitda : ℚ
  ebitda_margin : ℚ
  total_assets : ℚ
  total_liabilities : ℚ
  total_equity : ℚ
  cash : ℚ
  deriving Repr, DecidableEq, Inhabited

/-- calculate_kpis: latest = df.iloc[-1] (IndexError on an empty frame);
previous = df.iloc[-2] when len(df) > 1, in which case the change fields are
(latest/previous - 1) * 100, and 0 otherwise. -/
def calculate_kpis (df : List Period) : Except FinError KPIs :=
  match df.getLast? with
  | none => .error .insufficientData
  | some latest =>
    let changes : PyVal × PyVal :=
      match df.dropLast.getLast? with
      | some previous =>
        ((((PyVal.fin latest.revenue).div (.fin previous.revenue)).sub (.fin 1)).mul (.fin 100),
         (((PyVal.fin latest.net_income).div (.fin previous.net_income)).sub (.fin 1)).mul
           (.fin 100))
      | none => (.fin 0, .fin 0)
    .ok {
      total_revenue := latest.revenue
      revenue_change := changes.1
      gross_profit := latest.gross_profit
      gross_margin := latest.gross_margin
      operating_income := latest.operating_income
      operating_margin := latest.operating_margin
      net_income := latest.net_income
      net_income_change := changes.2
      net_margin := latest.net_margin
      ebitda := latest.ebitda
      ebitda_margin := latest.ebitda_margin
      total_assets := latest.total_assets
      total_liabilities := latest.total_liabilities
      total_equity := latest.total_equity
      cash := latest.cash }

structure LiquidityRatios where
  current_ratio : PyVal
  quick_ratio : PyVal
  cash_ratio : PyVal
  deriving Repr, DecidableEq, Inhabited

/-- calculate_liquidity_ratios: three unguarded divisions by
current_liabilities on the latest row, each rounded to 2 decimals. -/
def calculate_liquidity_ratios (df : List Period) : Except FinError LiquidityRatios :=
  match df.getLast? with
  | none => .error .insufficientData
  | some latest =>
    .ok {
      current_ratio :=
        ((PyVal.fin latest.current_assets).div (.fin latest.current_liabilities)).round2
      quick_ratio :=
        ((PyVal.fin (latest.current_assets - latest.inventory)).div
          (.fin latest.current_liabilities)).round2
      cash_ratio := ((PyVal.fin latest.cash).div (.fin latest.current_liabilities)).round2 }

structure LeverageRatios where
  debt_to_equity : PyVal
  debt_ratio : PyVal
  interest_coverage : PyVal
  lt_debt_to_equity : PyVal
  deriving Repr, DecidableEq, Inhabited

/-- calculate_leverage_ratios: interest_coverage is operating_income over
interest_expense if interest_expense > 0, else the literal 0. -/
def calculate_leverage_ratios (df : List Period) : Except FinError LeverageRatios :=
  match df.getLast? with
  | none => .error .insufficientData
  | some latest =>
    .ok {
      debt_to_equity :=
        ((PyVal.fin latest.total_liabilities).div (.fin latest.total_equity)).round2
      debt_ratio := ((PyVal.fin latest.total_liabilities).div (.fin latest.total_assets)).round2
      interest_coverage :=
        (if 0 < latest.interest_expense then
          (PyVal.fin latest.operating_income).div (.fin latest.interest_expense)
        else .fin 0).round2
      lt_debt_to_equity :=
        ((PyVal.fin latest.long_term_debt).div (.fin latest.total_equity)).round2 }

structure ProfitabilityRatios where
  roa : PyVal
  roe : PyVal
  roic : PyVal
  gross_margin : ℚ
  operating_margin : ℚ
  net_margin : ℚ
  deriving Repr, DecidableEq, Inhabited

/-- calculate_profitability_ratios: annualized returns on the latest row plus
pass-through of its margins. -/
def calculate_profitability_ratios (df : List Period) : Except FinError ProfitabilityRatios :=
  match df.getLast? with
  | none => .error .insufficientData
  | some latest =>
    .ok {
      roa := (((PyVal.fin (latest.net_income * 12)).div (.fin latest.total_assets)).mul
        (.fin 100)).round2
      roe := (((PyVal.fin (latest.net_income * 12)).div (.fin latest.total_equity)).mul
        (.fin 100)).round2
      roic := (((PyVal.fin (latest.operating_income * 12)).div
        (.fin (latest.total_equity + latest.long_term_debt))).mul (.fin 100)).round2
      gross_margin := latest.gross_margin
      operating_margin := latest.operating_margin
      net_margin := latest.net_margin }

/-! ## Annual summary (financial_analyzer.py: calculate_annual_summary) -/

/-- Insert into a list sorted ascending. -/
def insertSorted (y : ℕ) : List ℕ → List ℕ
  | [] => [y]
  | x :: xs => if y ≤ x then y :: x :: xs else x :: insertSorted y xs

/-- Insertion sort, ascending: pandas groupby sorts group keys. -/
def sortNats (l : List ℕ) : List ℕ := l.foldr insertSorted []

/-- Distinct values, keeping first occurrences. -/
def dedupNats : List ℕ → List ℕ
  | [] => []
  | x :: xs => x :: dedupNats (xs.filter (fun z => z != x))
termination_by l => l.length
decreasing_by
  simp only [List.length_cons]
  exact Nat.lt_succ_of_le (List.length_filter_le _ _)

/-- The distinct years of the frame, ascending: the group keys of
df.groupby('year'). -/
def yearsSorted (df : List Period) : List ℕ := sortNats (dedupNats (df.map (·.year)))

/-- The rows of one year group, in frame order. -/
def groupOf (df : List Period) (y : ℕ) : List Period := df.filter (fun p => p.year == y)

def sumBy (l : List Period) (f : Period → ℚ) : ℚ := (l.map f).sum

/-- One row of the annual summary DataFrame. -/
structure AnnualRow where
  year : ℕ
  revenue : ℚ
  gross_profit : ℚ
  operating_income : ℚ
  net_income : ℚ
  ebitda : ℚ
  total_assets : ℚ
  total_equity : ℚ
  cash : ℚ
  gross_margin : PyVal
  operating_margin : PyVal
  net_margin : PyVal
  revenue_growth : PyVal
  net_income_growth : PyVal
  deriving Repr, DecidableEq, Inhabited

/-- The aggregation row of one year: sum the flow columns, take the last
in-group value of the stock columns, and recompute the margins from the
summed flows.  The growth columns start as NaN (pct_change of the first
row). -/
def annualBase (df : List Period) (y : ℕ) : AnnualRow :=
  let g := groupOf df y
  let lastP := g.getLastD default
  let rev := sumBy g (·.revenue)
  let gp := sumBy g (·.gross_profit)
  let oi := sumBy g (·.operating_income)
  let ni := sumBy g (·.net_income)
  { year := y
    revenue := rev
    gross_profit := gp
    operating_income := oi
    net_income := ni
    ebitda := sumBy g (·.ebitda)
    total_assets := lastP.total_assets
    total_equity := lastP.total_equity
    cash := lastP.cash
    gross_margin := (((PyVal.fin gp).div (.fin rev)).mul (.fin 100)).round2
    operating_margin := (((PyVal.fin oi).div (.fin rev)).mul (.fin 100)).round2
    net_margin := (((PyVal.fin ni).div (.fin rev)).mul (.fin 100)).round2
    revenue_growth := .nan
    net_income_growth := .nan }

/-- pct_change * 100 down the annual rows: each row's growth is computed
against the previous row's (revenue, net_income); the first row keeps NaN. -/
def addGrowth : Option (ℚ × ℚ) → List AnnualRow → List AnnualRow
  | _, [] => []
  | prev, r :: rest =>
    let r' := match prev with
      | none => r
      | some (pr, pn) =>
        { r with
          revenue_growth := (((PyVal.fin r.revenue).div (.fin pr)).sub (.fin 1)).mul (.fin 100)
          net_income_growth :=
            (((PyVal.fin r.net_income).div (.fin pn)).sub (.fin 1)).mul (.fin 100) }
    r' :: addGrowth (some (r.revenue, r.net_income)) rest

/-- calculate_annual_summary: groupby('year') aggregation plus margins and
year-over-year growth columns. -/
def calculate_annual_summary (df : List Period) : List AnnualRow :=
  addGrowth none ((yearsSorted df).map (annualBase df))

/-! ## Period comparison (data_loader.py: get_period_comparison) -/

structure PeriodComparison where
  current_revenue : ℚ
  previous_revenue : ℚ
  revenue_growth : PyVal
  current_net_income : ℚ
  previous_net_income : ℚ
  net_income_growth : PyVal
  current_gross_margin : PyVal
  previous_gross_margin : PyVal
  deriving Repr, DecidableEq, Inhabited

/-- get_period_comparison: the empty dict (here: none) when either year has
no rows, otherwise within-year sums, growth and volume-weighted margins. -/
def get_period_comparison (df : List Period) (current_year previous_year : ℕ) :
    Option PeriodComparison :=
  let current := groupOf df current_year
  let previous := groupOf df previous_year
  if current.isEmpty || previous.isEmpty then none
  else some {
    current_revenue := sumBy current (·.revenue)
    previous_revenue := sumBy previous (·.revenue)
    revenue_growth :=
      (((PyVal.fin (sumBy current (·.revenue))).div
        (.fin (sumBy previous (·.revenue)))).sub (.fin 1)).mul (.fin 100)
    current_net_income := sumBy current (·.net_income)
    previous_net_income := sumBy previous (·.net_income)
    net_income_growth :=
      (((PyVal.fin (sumBy current (·.net_income))).div
        (.fin (sumBy previous (·.net_income)))).sub (.fin 1)).mul (.fin 100)
    current_gross_margin :=
      ((PyVal.fin (sumBy current (·.gross_profit))).div
        (.fin (sumBy current (·.revenue)))).mul (.fin 100)
    previous_gross_margin :=
      ((PyVal.fin (sumBy previous (·.gross_profit))).div
        (.fin (sumBy previous (·.revenue)))).mul (.fin 100) }

/-! ## Forecasting engine (forecasting.py) -/

/-- Series.pct_change(): the list of current/previous - 1 over consecutive
entries (the leading NaN that pandas places at index 0 is dropped here; the
mean below skips NaN entries either way). -/
def pctChanges (xs : List ℚ) : List PyVal :=
  match xs with
  | [] => []
  | _ :: t =>
    List.zipWith (fun prev cur => ((PyVal.fin cur).div (.fin prev)).sub (.fin 1)) xs t

/-- Series.mean(): skips NaN entries; NaN when no valid entry remains. -/
def pdMean (xs : List PyVal) : PyVal :=
  let valid := xs.filter (fun v => !v.isNan)
  match valid with
  | [] => .nan
  | _ => (valid.foldl PyVal.add (.fin 0)).div (.fin (valid.length : ℚ))

/-- One forecast row: point forecast with its lower and upper bound. -/
structure ForecastPoint where
  forecast : PyVal
  lower_bound : PyVal
  upper_bound : PyVal
  deriving Repr, DecidableEq, Inhabited

/-- The dict returned by forecast_revenue / simple_forecast (forecast dates
and the historical echo carry no analytic content and are omitted). -/
structure ForecastResult where
  points : List ForecastPoint
  mae : PyVal
  mape : PyVal
  rmse : PyVal
  deriving Repr, DecidableEq, Inhabited

/-- simple_forecast: the deterministic geometric-growth fallback.
growth_rate = series.pct_change().mean(); forecast_i = last_value *
(1 + growth_rate) ** (i + 1) with fixed +-10 percent bands; all accuracy
metrics are the literal 0.  series.iloc[-1] raises on an empty frame. -/
def simple_forecast (df : List Period) (metric : Period → ℚ) (periods : ℕ) :
    Except FinError ForecastResult :=
  let series := df.map metric
  let growth_rate := pdMean (pctChanges series)
  match df.getLast? with
  | none => .error .insufficientData
  | some lastP =>
    let last_value := metric lastP
    let pts := (List.range periods).map (fun i =>
      let v := (PyVal.fin last_value).mul (((PyVal.fin 1).add growth_rate).pow (i + 1))
      { forecast := v
        lower_bound := v.mul (.fin (9 / 10))
        upper_bound := v.mul (.fin (11 / 10)) : ForecastPoint })
    .ok { points := pts, mae := .fin 0, mape := .fin 0, rmse := .fin 0 }

/-- forecast_revenue: the whole Holt-Winters branch sits in a try block whose
except clause returns simple_forecast(df, 'revenue', periods).  The argument
`fit` is the outcome of that try block: some fitted result when the
statsmodels call succeeded, none when it raised for any reason. -/
def forecast_revenue (fit : Option ForecastResult) (df : List Period) (periods : ℕ) :
    Except FinError ForecastResult :=
  match fit with
  | some fitted => .ok fitted
  | none => simple_forecast df (·.revenue) periods

/-! ## Growth projections (forecasting.py: calculate_growth_projections) -/

/-- df.groupby('year')['revenue'].sum(): annual revenue totals in ascending
year order. -/
def annualRevenueTotals (df : List Period) : List ℚ :=
  (yearsSorted df).map (fun y => sumBy (groupOf df y) (·.revenue))

/-- The cagr variable of calculate_growth_projections:
(annual.iloc[-1] / annual.iloc[0]) ** (1 / (len(annual) - 1)) - 1 when at
least two annual points exist, else the literal 0.  The fractional power is
real-valued, hence the embedding into the reals. -/
noncomputable def cagrOf (annual : List ℚ) : ℝ :=
  if 2 ≤ annual.length then
    (((annual.getLastD 0 : ℚ) : ℝ) / ((annual.headD 0 : ℚ) : ℝ)) ^
      ((1 : ℝ) / ((annual.length : ℝ) - 1)) - 1
  else 0

/-- The cagr of calculate_growth_projections over the frame (the returned
dict reports round(cagr * 100, 2)). -/
noncomputable def growthProjections_cagr (df : List Period) : ℝ :=
  cagrOf (annualRevenueTotals df)

/-! ## Scenario analysis (forecasting.py: scenario_analysis) -/

structure ScenarioParams where
  growth : ℚ
  margin_change : ℚ
  deriving Repr, DecidableEq, Inhabited

/-- One row of the scenario DataFrame. -/
structure ScenarioRow where
  scenario : String
  revenue : ℚ
  growth_rate : ℚ
  net_margin : ℚ
  net_income : ℚ
  deriving Repr, DecidableEq, Inhabited

/-- The default scenario table (Python dicts preserve insertion order). -/
def defaultScenarios : List (String × ScenarioParams) :=
  [("pessimistic", { growth := -(1 / 20), margin_change := -(1 / 50) }),
   ("base", { growth := 1 / 10, margin_change := 0 }),
   ("optimistic", { growth := 1 / 5, margin_change := 1 / 50 })]

/-- scenario_analysis: annualize the latest monthly revenue, take the latest
net margin, and apply each scenario's growth and margin change in table
order.  df['revenue'].iloc[-1] raises on an empty frame. -/
def scenario_analysis (df : List Period)
    (scenarios : Option (List (String × ScenarioParams))) :
    Except FinError (List ScenarioRow) :=
  match df.getLast? with
  | none => .error .insufficientData
  | some latest =>
    let scs := scenarios.getD defaultScenarios
    let base_revenue := latest.revenue * 12
    let base_margin := latest.net_margin / 100
    .ok (scs.map (fun sc =>
      let projected_revenue := base_revenue * (1 + sc.2.growth)
      let projected_margin := base_margin + sc.2.margin_change
      { scenario := sc.1
        revenue := projected_revenue
        growth_rate := sc.2.growth * 100
        net_margin := projected_margin * 100
        net_income := projected_revenue * projected_margin }))

/-! ## Health indicators (financial_analyzer.py: get_health_indicators) -/

/-- The value cell of a health indicator: the first four indicators carry the
numeric ratio, the last two carry the f-string of the number with a percent
sign appended. -/
inductive HValue where
  | num (v : PyVal)
  | pctText (v : PyVal)
  deriving Repr, DecidableEq, Inhabited

def HValue.isPctText : HValue → Bool
  | pctText _ => true
  | _ => false

structure HealthIndicator where
  metric : String
  value : HValue
  status : String
  benchmark : String
  description : String
  deriving Repr, DecidableEq, Inhabited

def statusOf (good warn : Bool) : String :=
  if good then "Good" else if warn then "Warning" else "Critical"

/-- get_health_indicators: six fixed indicators built from the liquidity,
leverage and profitability ratio dicts. -/
def get_health_indicators (df : List Period) : Except FinError (List HealthIndicator) := do
  let liquidity ← calculate_liquidity_ratios df
  let leverage ← calculate_leverage_ratios df
  let profitability ← calculate_profitability_ratios df
  let cr := liquidity.current_ratio
  let qr := liquidity.quick_ratio
  let de := leverage.debt_to_equity
  let ic := leverage.interest_coverage
  let roe := profitability.roe
  let nm := profitability.net_margin
  pure [
    { metric := "Current Ratio", value := .num cr
      status := statusOf (cr.geQ (3 / 2)) (cr.geQ 1)
      benchmark := "≥ 1.5", description := "Ability to pay short-term obligations" },
    { metric := "Quick Ratio", value := .num qr
      status := statusOf (qr.geQ 1) (qr.geQ (7 / 10))
      benchmark := "≥ 1.0", description := "Liquid assets coverage of current liabilities" },
    { metric := "Debt to Equity", value := .num de
      status := statusOf (de.leQ 1) (de.leQ 2)
      benchmark := "≤ 1.0", description := "Financial leverage level" },
    { metric := "Interest Coverage", value := .num ic
      status := statusOf (ic.geQ 3) (ic.geQ (3 / 2))
      benchmark := "≥ 3.0", description := "Ability to service debt" },
    { metric := "Return on Equity", value := .pctText roe
      status := statusOf (roe.geQ 15) (roe.geQ 10)
      benchmark := "≥ 15%", description := "Shareholder return efficiency" },
    { metric := "Net Profit Margin", value := .pctText (.fin nm)
      status := statusOf (decide (15 ≤ nm)) (decide (10 ≤ nm))
      benchmark := "≥ 15%", description := "Bottom line profitability" }]

/-! ## Helper lemmas -/

theorem exists_getLast?_eq_some {α : Type} (l : List α) (h : l ≠ []) :
    ∃ a, l.getLast? = some a :=
  ⟨l.getLast h, List.getLast?_eq_getLast_of_ne_nil h⟩

theorem pv_div_fin_zero (a : ℚ) :
    (PyVal.fin a).div (.fin 0) =
      if 0 < a then PyVal.inf else if a < 0 then PyVal.ninf else PyVal.nan := by
  simp [PyVal.div]

theorem pv_round2_div_fin_zero_isFin (a : ℚ) :
    (((PyVal.fin a).div (.fin 0)).round2).isFin = false := by
  rw [pv_div_fin_zero]
  split_ifs <;> simp [PyVal.round2, PyVal.isFin]

theorem pv_div_fin_zero_pos (a : ℚ) (ha : 0 < a) :
    ((PyVal.fin a).div (.fin 0)).round2 = .inf := by
  rw [pv_div_fin_zero, if_pos ha]
  rfl

theorem pv_div_fin_of_ne (a b : ℚ) (hb : b ≠ 0) :
    (PyVal.fin a).div (.fin b) = .fin (a / b) := by
  simp [PyVal.div, hb]

/-! ## C2: calculate_kpis errors exactly on the empty series -/

/-- C2: calculate_kpis fails with InsufficientDataError if and only if the
input series is empty; for every non-empty series it returns the KPI map
without raising. -/
theorem calculate_kpis_insufficient_iff (df : List Period) :
    (calculate_kpis df = .error .insufficientData ↔ df = []) ∧
    (df ≠ [] → ∃ k, calculate_kpis df = .ok k) := by
  have hok : df ≠ [] → ∃ k, calculate_kpis df = .ok k := by
    intro hne
    obtain ⟨L, hL⟩ := exists_getLast?_eq_some df hne
    cases h : calculate_kpis df with
    | error e =>
      simp only [calculate_kpis, hL] at h
      exact Except.noConfusion h
    | ok k => exact ⟨k, rfl⟩
  refine ⟨⟨fun h => ?_, fun h => by subst h; rfl⟩, hok⟩
  by_contra hne
  obtain ⟨k, hk⟩ := hok hne
  rw [h] at hk
  exact Except.noConfusion hk

/-! ## C3: liquidity ratios and the zero-denominator behavior -/

/-- A concrete latest period with current_liabilities = 0 (and positive
current assets, inventory below them, positive cash). -/
def c3period : Period :=
  { year := 2024, revenue := 100, gross_profit := 50, operating_income := 30,
    net_income := 20, ebitda := 35, total_assets := 500, total_liabilities := 200,
    total_equity := 300, cash := 20, current_assets := 50, current_liabilities := 0,
    inventory := 10, interest_expense := 10, long_term_debt := 120,
    gross_margin := 50, operating_margin := 30, net_margin := 20, ebitda_margin := 35 }

/-- C3 counterexample: with current_liabilities = 0 on the latest period,
calculate_liquidity_ratios signals no error at all; the three numpy
divisions by zero silently evaluate to inf and the function returns them in
an ordinary ok result, contradicting the claim that RatioUndefinedError is
signalled rather than silently returning infinity or NaN. -/
theorem calculate_liquidity_ratios_zero_cl_counterexample :
    calculate_liquidity_ratios [c3period] =
      .ok { current_ratio := .inf, quick_ratio := .inf, cash_ratio := .inf } ∧
    ∀ e, calculate_liquidity_ratios [c3period] ≠ .error e := by
  have hu : calculate_liquidity_ratios [c3period] = .ok {
      current_ratio :=
        ((PyVal.fin c3period.current_assets).div (.fin c3period.current_liabilities)).round2
      quick_ratio :=
        ((PyVal.fin (c3period.current_assets - c3period.inventory)).div
          (.fin c3period.current_liabilities)).round2
      cash_ratio :=
        ((PyVal.fin c3period.cash).div (.fin c3period.current_liabilities)).round2 } := rfl
  have hcl : c3period.current_liabilities = 0 := rfl
  have h : calculate_liquidity_ratios [c3period] =
      .ok { current_ratio := .inf, quick_ratio := .inf, cash_ratio := .inf } := by
    rw [hu, hcl]
    rw [pv_div_fin_zero_pos _ (by decide),
      pv_div_fin_zero_pos _ (by
        rw [show c3period.current_assets = 50 from rfl, show c3period.inventory = 10 from rfl]
        norm_num),
      pv_div_fin_zero_pos _ (by decide)]
  refine ⟨h, fun e he => ?_⟩
  rw [h] at he
  exact Except.noConfusion he

/-- C3 (amended): for every non-empty series, calculate_liquidity_ratios
returns (never raises) the three ratios computed with numpy division and
rounded to 2 decimals; when the latest current_liabilities is zero the
returned ratios are non-finite (inf or NaN) rather than an error, and when
it is nonzero they are the exact rounded quotients. -/
theorem calculate_liquidity_ratios_spec (df : List Period) (L : Period)
    (hL : df.getLast? = some L) :
    ∃ r, calculate_liquidity_ratios df = .ok r ∧
      r.current_ratio =
        ((PyVal.fin L.current_assets).div (.fin L.current_liabilities)).round2 ∧
      r.quick_ratio =
        ((PyVal.fin (L.current_assets - L.inventory)).div
          (.fin L.current_liabilities)).round2 ∧
      r.cash_ratio = ((PyVal.fin L.cash).div (.fin L.current_liabilities)).round2 ∧
      (L.current_liabilities = 0 →
        r.current_ratio.isFin = false ∧ r.quick_ratio.isFin = false ∧
          r.cash_ratio.isFin = false) ∧
      (L.current_liabilities ≠ 0 →
        r.current_ratio = .fin (round2q (L.current_assets / L.current_liabilities)) ∧
        r.quick_ratio =
          .fin (round2q ((L.current_assets - L.inventory) / L.current_liabilities)) ∧
        r.cash_ratio = .fin (round2q (L.cash / L.current_liabilities))) := by
  simp only [calculate_liquidity_ratios, hL]
  refine ⟨_, rfl, rfl, rfl, rfl, fun h0 => ?_, fun hne => ?_⟩
  · rw [h0]
    exact ⟨pv_round2_div_fin_zero_isFin _, pv_round2_div_fin_zero_isFin _,
      pv_round2_div_fin_zero_isFin _⟩
  · rw [pv_div_fin_of_ne _ _ hne, pv_div_fin_of_ne _ _ hne, pv_div_fin_of_ne _ _ hne]
    exact ⟨rfl, rfl, rfl⟩

/-- The c3period balance sheet with a nonzero current_liabilities. -/
def c3periodPos : Period := { c3period with current_liabilities := 100 }

/-- C3 witness: a concrete non-empty series with nonzero current_liabilities,
where the amended theorem yields the exact rounded ratios. -/
theorem calculate_liquidity_ratios_spec_witness :
    ∃ r, calculate_liquidity_ratios [c3periodPos] = .ok r ∧
      r.current_ratio = .fin (1 / 2) ∧ r.quick_ratio = .fin (2 / 5) ∧
      r.cash_ratio = .fin (1 / 5) := by
  obtain ⟨r, hok, -, -, -, -, hfin⟩ :=
    calculate_liquidity_ratios_spec [c3periodPos] c3periodPos rfl
  obtain ⟨h1, h2, h3⟩ := hfin (by decide)
  refine ⟨r, hok, ?_, ?_, ?_⟩
  · rw [h1]
    norm_num [show c3periodPos.current_assets = 50 from rfl,
      show c3periodPos.current_liabilities = 100 from rfl, round2q, roundHalfEven]
  · rw [h2]
    norm_num [show c3periodPos.current_assets = 50 from rfl,
      show c3periodPos.inventory = 10 from rfl,
      show c3periodPos.current_liabilities = 100 from rfl, round2q, roundHalfEven]
  · rw [h3]
    norm_num [show c3periodPos.cash = 20 from rfl,
      show c3periodPos.current_liabilities = 100 from rfl, round2q, roundHalfEven]

/-! ## C4: interest coverage policy value -/

/-- C4: for every non-empty series, interest_coverage is the literal 0 when
the latest interest_expense <= 0, and operating_income/interest_expense
rounded to 2 decimals when it is positive. -/
theorem calculate_leverage_interest_coverage (df : List Period) (L : Period)
    (hL : df.getLast? = some L) :
    ∃ r, calculate_leverage_ratios df = .ok r ∧
      (L.interest_expense ≤ 0 → r.interest_coverage = .fin 0) ∧
      (0 < L.interest_expense →
        r.interest_coverage = .fin (round2q (L.operating_income / L.interest_expense))) := by
  simp only [calculate_leverage_ratios, hL]
  refine ⟨_, rfl, fun hle => ?_, fun hpos => ?_⟩
  · rw [if_neg (not_lt.mpr hle)]
    show PyVal.fin (round2q 0) = .fin 0
    norm_num [round2q, roundHalfEven]
  · rw [if_pos hpos, pv_div_fin_of_ne _ _ (ne_of_gt hpos)]
    rfl

def c4period : Period := { c3period with operating_income := 300, interest_expense := 100 }

def c4zperiod : Period := { c3period with operating_income := 300, interest_expense := 0 }

/-- C4 witness: operating_income = 300 with interest_expense = 100 gives
exactly 3.0, and the same period with interest_expense = 0 gives the
literal 0. -/
theorem calculate_leverage_interest_coverage_witness :
    (∃ r, calculate_leverage_ratios [c4period] = .ok r ∧ r.interest_coverage = .fin 3) ∧
    (∃ r, calculate_leverage_ratios [c4zperiod] = .ok r ∧ r.interest_coverage = .fin 0) := by
  constructor
  · obtain ⟨r, hok, -, hpos⟩ :=
      calculate_leverage_interest_coverage [c4period] c4period rfl
    refine ⟨r, hok, ?_⟩
    rw [hpos (by decide)]
    norm_num [show c4period.operating_income = 300 from rfl,
      show c4period.interest_expense = 100 from rfl, round2q, roundHalfEven]
  · obtain ⟨r, hok, hz, -⟩ :=
      calculate_leverage_interest_coverage [c4zperiod] c4zperiod rfl
    exact ⟨r, hok, hz (by decide)⟩

/-! ## C5: period-over-period change fields -/

/-- C5: with at least 2 periods the revenue and net-income change fields are
(latest/previous - 1) * 100 over the last two periods; with exactly one
period both are the literal 0. -/
theorem calculate_kpis_changes (df : List Period) (L : Period)
    (hL : df.getLast? = some L) :
    (∀ P, df.dropLast.getLast? = some P →
      ∃ k, calculate_kpis df = .ok k ∧
        k.revenue_change =
          (((PyVal.fin L.revenue).div (.fin P.revenue)).sub (.fin 1)).mul (.fin 100) ∧
        k.net_income_change =
          (((PyVal.fin L.net_income).div (.fin P.net_income)).sub (.fin 1)).mul
            (.fin 100)) ∧
    (df.dropLast = [] →
      ∃ k, calculate_kpis df = .ok k ∧
        k.revenue_change = .fin 0 ∧ k.net_income_change = .fin 0) := by
  constructor
  · intro P hP
    simp only [calculate_kpis, hL, hP]
    exact ⟨_, rfl, rfl, rfl⟩
  · intro hone
    simp only [calculate_kpis, hL, hone, List.getLast?_nil]
    exact ⟨_, rfl, rfl, rfl⟩

def c5b : Period := { c3period with revenue := 110, net_income := 25 }

/-- C5 witness: a two-period series (revenue 100 to 110, net income 20 to 25)
gives changes of exactly 10 and 25, and a one-period series gives 0. -/
theorem calculate_kpis_changes_witness :
    (∃ k, calculate_kpis [c3period, c5b] = .ok k ∧
      k.revenue_change = .fin 10 ∧ k.net_income_change = .fin 25) ∧
    (∃ k, calculate_kpis [c3period] = .ok k ∧
      k.revenue_change = .fin 0 ∧ k.net_income_change = .fin 0) := by
  constructor
  · obtain ⟨h2, -⟩ := calculate_kpis_changes [c3period, c5b] c5b rfl
    obtain ⟨k, hok, hrv, hni⟩ := h2 c3period rfl
    refine ⟨k, hok, ?_, ?_⟩
    · rw [hrv, pv_div_fin_of_ne _ _ (by decide)]
      simp only [PyVal.sub, PyVal.neg, PyVal.add, PyVal.mul, PyVal.fin.injEq]
      norm_num [show c5b.revenue = 110 from rfl, show c3period.revenue = 100 from rfl]
    · rw [hni, pv_div_fin_of_ne _ _ (by decide)]
      simp only [PyVal.sub, PyVal.neg, PyVal.add, PyVal.mul, PyVal.fin.injEq]
      norm_num [show c5b.net_income = 25 from rfl, show c3period.net_income = 20 from rfl]
  · obtain ⟨-, h1⟩ := calculate_kpis_changes [c3period] c3period rfl
    exact h1 rfl

/-! ## C1: the forecast fallback path -/

/-- C1: whenever the seasonal fit raises (fit outcome none), forecast_revenue
returns the geometric-growth fallback ok (never an error): growth_rate is the
mean of period-over-period percentage changes, point i is
last_value * (1 + growth_rate) ^ (i + 1), the bounds are the point times 0.9
and 1.1, and mae, mape, rmse are all the literal 0. -/
theorem forecast_revenue_fallback (df : List Period) (periods : ℕ) (L : Period)
    (hL : df.getLast? = some L) :
    ∃ r, forecast_revenue none df periods = .ok r ∧
      r.mae = .fin 0 ∧ r.mape = .fin 0 ∧ r.rmse = .fin 0 ∧
      r.points.length = periods ∧
      ∀ i, i < periods →
        r.points[i]? = some
          { forecast := (PyVal.fin L.revenue).mul
              (((PyVal.fin 1).add (pdMean (pctChanges (df.map (·.revenue))))).pow (i + 1))
            lower_bound := ((PyVal.fin L.revenue).mul
              (((PyVal.fin 1).add
                (pdMean (pctChanges (df.map (·.revenue))))).pow (i + 1))).mul
              (.fin (9 / 10))
            upper_bound := ((PyVal.fin L.revenue).mul
              (((PyVal.fin 1).add
                (pdMean (pctChanges (df.map (·.revenue))))).pow (i + 1))).mul
              (.fin (11 / 10)) } := by
  simp only [forecast_revenue, simple_forecast, hL]
  refine ⟨_, rfl, rfl, rfl, rfl, by simp, fun i hi => ?_⟩
  simp [List.getElem?_map, List.getElem?_range hi]

def c1c : Period := { c3period with revenue := 121 }

/-- C1 witness: three periods with revenue 100, 110, 121 give growth rate
1/10, so the first fallback point is 121 * 1.1 = 133.1 with bounds 119.79 and
146.41, and all accuracy metrics are 0. -/
theorem forecast_revenue_fallback_witness :
    ∃ r, forecast_revenue none [c3period, c5b, c1c] 2 = .ok r ∧
      r.mae = .fin 0 ∧ r.mape = .fin 0 ∧ r.rmse = .fin 0 ∧
      r.points[0]? = some
        { forecast := .fin (1331 / 10), lower_bound := .fin (11979 / 100),
          upper_bound := .fin (14641 / 100) } := by
  obtain ⟨r, hok, h1, h2, h3, -, hpt⟩ :=
    forecast_revenue_fallback [c3period, c5b, c1c] 2 c1c rfl
  refine ⟨r, hok, h1, h2, h3, ?_⟩
  rw [hpt 0 (by decide)]
  norm_num [c3period, c5b, c1c, pctChanges, pdMean, PyVal.div, PyVal.sub, PyVal.neg,
    PyVal.add, PyVal.mul, PyVal.pow, PyVal.isNan, List.zipWith, List.filter, List.foldl,
    ForecastPoint.mk.injEq, PyVal.fin.injEq]

/-! ## C7: period comparison -/

/-- C7: get_period_comparison returns the empty result when either requested
year has no rows, and otherwise the within-year sums, the growth values
(sum_a/sum_b - 1) * 100 and the volume-weighted gross margins
sum(gross_profit)/sum(revenue) * 100 per year. -/
theorem get_period_comparison_spec (df : List Period) (cy py : ℕ) :
    ((groupOf df cy = [] ∨ groupOf df py = []) → get_period_comparison df cy py = none) ∧
    (groupOf df cy ≠ [] → groupOf df py ≠ [] →
      get_period_comparison df cy py = some {
        current_revenue := sumBy (groupOf df cy) (·.revenue)
        previous_revenue := sumBy (groupOf df py) (·.revenue)
        revenue_growth :=
          (((PyVal.fin (sumBy (groupOf df cy) (·.revenue))).div
            (.fin (sumBy (groupOf df py) (·.revenue)))).sub (.fin 1)).mul (.fin 100)
        current_net_income := sumBy (groupOf df cy) (·.net_income)
        previous_net_income := sumBy (groupOf df py) (·.net_income)
        net_income_growth :=
          (((PyVal.fin (sumBy (groupOf df cy) (·.net_income))).div
            (.fin (sumBy (groupOf df py) (·.net_income)))).sub (.fin 1)).mul (.fin 100)
        current_gross_margin :=
          ((PyVal.fin (sumBy (groupOf df cy) (·.gross_profit))).div
            (.fin (sumBy (groupOf df cy) (·.revenue)))).mul (.fin 100)
        previous_gross_margin :=
          ((PyVal.fin (sumBy (groupOf df py) (·.gross_profit))).div
            (.fin (sumBy (groupOf df py) (·.revenue)))).mul (.fin 100) }) := by
  constructor
  · rintro (h | h) <;> simp [get_period_comparison, h]
  · intro h1 h2
    simp [get_period_comparison, List.isEmpty_iff, h1, h2]

/-! ## C9: scenario analysis -/

/-- C9: for every non-empty series and any scenario table (the default one
when none is supplied), each row applies its growth to the annualized latest
revenue and its margin change to the latest net margin, with
net_income = projected_revenue * projected_margin, in table order. -/
theorem scenario_analysis_spec (df : List Period) (L : Period)
    (hL : df.getLast? = some L) (scenarios : Option (List (String × ScenarioParams))) :
    scenario_analysis df scenarios = .ok ((scenarios.getD defaultScenarios).map (fun sc =>
      { scenario := sc.1
        revenue := (L.revenue * 12) * (1 + sc.2.growth)
        growth_rate := sc.2.growth * 100
        net_margin := (L.net_margin / 100 + sc.2.margin_change) * 100
        net_income := ((L.revenue * 12) * (1 + sc.2.growth)) *
          (L.net_margin / 100 + sc.2.margin_change) })) := by
  simp only [scenario_analysis, hL]

def c9period : Period := { c3period with revenue := 100000, net_margin := 20 }

/-- C9 witness: latest monthly revenue 100,000 and net margin 20 percent under
the default table: the base scenario projects annual revenue 1,320,000 and
net income 264,000 (the pessimistic and optimistic rows likewise follow the
formulas). -/
theorem scenario_analysis_spec_witness :
    scenario_analysis [c9period] none = .ok [
      { scenario := "pessimistic", revenue := 1140000, growth_rate := -5,
        net_margin := 18, net_income := 205200 },
      { scenario := "base", revenue := 1320000, growth_rate := 10,
        net_margin := 20, net_income := 264000 },
      { scenario := "optimistic", revenue := 1440000, growth_rate := 20,
        net_margin := 22, net_income := 316800 }] := by
  rw [scenario_analysis_spec [c9period] c9period rfl none]
  norm_num [defaultScenarios, show c9period.revenue = 100000 from rfl,
    show c9period.net_margin = 20 from rfl, ScenarioRow.mk.injEq]

/-! ## C10: health indicator order and value shapes -/

/-- C10: for every non-empty series the six indicators come in the fixed
order Current Ratio, Quick Ratio, Debt to Equity, Interest Coverage, Return
on Equity, Net Profit Margin; the first four carry the numeric ratio in
their value field while the last two carry the percent-formatted text of the
number, not a number. -/
theorem get_health_indicators_spec (df : List Period) (L : Period)
    (hL : df.getLast? = some L) :
    ∃ l liq lev prof,
      get_health_indicators df = .ok l ∧
      calculate_liquidity_ratios df = .ok liq ∧
      calculate_leverage_ratios df = .ok lev ∧
      calculate_profitability_ratios df = .ok prof ∧
      l.map (fun i => i.metric) = ["Current Ratio", "Quick Ratio", "Debt to Equity",
        "Interest Coverage", "Return on Equity", "Net Profit Margin"] ∧
      l.map (fun i => i.value) = [.num liq.current_ratio, .num liq.quick_ratio,
        .num lev.debt_to_equity, .num lev.interest_coverage,
        .pctText prof.roe, .pctText (.fin prof.net_margin)] ∧
      l.map (fun i => i.value.isPctText) = [false, false, false, false, true, true] := by
  simp only [get_health_indicators, calculate_liquidity_ratios, calculate_leverage_ratios,
    calculate_profitability_ratios, hL, Bind.bind, Except.bind, Pure.pure, Except.pure]
  exact ⟨_, _, _, _, rfl, rfl, rfl, rfl, rfl, rfl, rfl⟩

/-- C10 witness: the six indicators of a concrete one-period series, with the
metric order and the numeric/percent-text shape of each value field. -/
theorem get_health_indicators_spec_witness :
    ∃ l, get_health_indicators [c3periodPos] = .ok l ∧
      l.map (fun i => i.metric) = ["Current Ratio", "Quick Ratio", "Debt to Equity",
        "Interest Coverage", "Return on Equity", "Net Profit Margin"] ∧
      l.map (fun i => i.value.isPctText) = [false, false, false, false, true, true] := by
  obtain ⟨l, liq, lev, prof, hok, -, -, -, hm, -, hp⟩ :=
    get_health_indicators_spec [c3periodPos] c3periodPos rfl
  exact ⟨l, hok, hm, hp⟩

/-! ## C6: annual summary -/

theorem insertSorted_ne_nil (y : ℕ) (l : List ℕ) : insertSorted y l ≠ [] := by
  cases l with
  | nil => simp [insertSorted]
  | cons x xs =>
    simp only [insertSorted]
    split <;> simp

theorem sortNats_ne_nil {l : List ℕ} (h : l ≠ []) : sortNats l ≠ [] := by
  cases l with
  | nil => exact absurd rfl h
  | cons x xs =>
    simp only [sortNats, List.foldr_cons]
    exact insertSorted_ne_nil x _

theorem yearsSorted_ne_nil {df : List Period} (h : df ≠ []) : yearsSorted df ≠ [] := by
  apply sortNats_ne_nil
  cases df with
  | nil => exact absurd rfl h
  | cons p t => simp [dedupNats]

/-- addGrowth only rewrites the two growth columns: every output row agrees
with some input row on all other columns. -/
theorem addGrowth_mem (prev : Option (ℚ × ℚ)) (rows : List AnnualRow) (row : AnnualRow)
    (h : row ∈ addGrowth prev rows) :
    ∃ b ∈ rows, row.year = b.year ∧ row.revenue = b.revenue ∧
      row.gross_profit = b.gross_profit ∧ row.operating_income = b.operating_income ∧
      row.net_income = b.net_income ∧ row.ebitda = b.ebitda ∧
      row.total_assets = b.total_assets ∧ row.total_equity = b.total_equity ∧
      row.cash = b.cash ∧ row.gross_margin = b.gross_margin ∧
      row.operating_margin = b.operating_margin ∧ row.net_margin = b.net_margin := by
  induction rows generalizing prev with
  | nil => simp [addGrowth] at h
  | cons r rest ih =>
    rcases prev with _ | ⟨pr, pn⟩
    · simp only [addGrowth, List.mem_cons] at h
      rcases h with rfl | h
      · exact ⟨_, List.mem_cons_self _ _, rfl, rfl, rfl, rfl, rfl, rfl, rfl, rfl, rfl,
          rfl, rfl, rfl⟩
      · obtain ⟨b, hb, hf⟩ := ih _ h
        exact ⟨b, List.mem_cons_of_mem _ hb, hf⟩
    · simp only [addGrowth, List.mem_cons] at h
      rcases h with rfl | h
      · exact ⟨_, List.mem_cons_self _ _, rfl, rfl, rfl, rfl, rfl, rfl, rfl, rfl, rfl,
          rfl, rfl, rfl⟩
      · obtain ⟨b, hb, hf⟩ := ih _ h
        exact ⟨b, List.mem_cons_of_mem _ hb, hf⟩

/-- C6: every annual summary row sums the flow columns of its year group,
takes the last in-group stock values, and recomputes the margins from the
summed flows; the first row's growth columns are NaN (undefined), never 0. -/
theorem calculate_annual_summary_spec (df : List Period) (hdf : df ≠ []) :
    (∀ row ∈ calculate_annual_summary df,
      row.revenue = sumBy (groupOf df row.year) (·.revenue) ∧
      row.gross_profit = sumBy (groupOf df row.year) (·.gross_profit) ∧
      row.operating_income = sumBy (groupOf df row.year) (·.operating_income) ∧
      row.net_income = sumBy (groupOf df row.year) (·.net_income) ∧
      row.ebitda = sumBy (groupOf df row.year) (·.ebitda) ∧
      row.total_assets = ((groupOf df row.year).getLastD default).total_assets ∧
      row.total_equity = ((groupOf df row.year).getLastD default).total_equity ∧
      row.cash = ((groupOf df row.year).getLastD default).cash ∧
      row.gross_margin =
        (((PyVal.fin row.gross_profit).div (.fin row.revenue)).mul (.fin 100)).round2 ∧
      row.operating_margin =
        (((PyVal.fin row.operating_income).div (.fin row.revenue)).mul (.fin 100)).round2 ∧
      row.net_margin =
        (((PyVal.fin row.net_income).div (.fin row.revenue)).mul (.fin 100)).round2) ∧
    ((calculate_annual_summary df).headD default).revenue_growth = PyVal.nan ∧
    ((calculate_annual_summary df).headD default).net_income_growth = PyVal.nan ∧
    ((calculate_annual_summary df).headD default).revenue_growth ≠ PyVal.fin 0 ∧
    ((calculate_annual_summary df).headD default).net_income_growth ≠ PyVal.fin 0 := by
  have hhead : (calculate_annual_summary df).headD default =
      annualBase df ((yearsSorted df).headD 0) := by
    obtain ⟨y0, ytl, hys⟩ := List.exists_cons_of_ne_nil (yearsSorted_ne_nil hdf)
    rw [calculate_annual_summary, hys]
    simp only [List.map_cons, addGrowth, List.headD_cons]
  refine ⟨?_, ?_, ?_, ?_, ?_⟩
  · intro row hrow
    obtain ⟨b, hb, hy, hrev, hgp, hoi, hni, heb, hta, hte, hcash, hgm, hom, hnm⟩ :=
      addGrowth_mem _ _ _ hrow
    obtain ⟨y, hymem, rfl⟩ := List.mem_map.mp hb
    have hyy : row.year = y := hy
    exact ⟨by rw [hrev, hyy]; rfl, by rw [hgp, hyy]; rfl, by rw [hoi, hyy]; rfl,
      by rw [hni, hyy]; rfl, by rw [heb, hyy]; rfl, by rw [hta, hyy]; rfl,
      by rw [hte, hyy]; rfl, by rw [hcash, hyy]; rfl,
      by rw [hgm, hgp, hrev]; rfl, by rw [hom, hoi, hrev]; rfl, by rw [hnm, hni, hrev]; rfl⟩
  · rw [hhead]; rfl
  · rw [hhead]; rfl
  · rw [hhead]
    show PyVal.nan ≠ PyVal.fin 0
    decide
  · rw [hhead]
    show PyVal.nan ≠ PyVal.fin 0
    decide

/-- A second period in the same year with a very different revenue volume, so
the summed margin differs from the naive average of monthly margins. -/
def c6p2 : Period := { c3period with revenue := 300, gross_profit := 60, gross_margin := 20 }

/-- C6 witness: on a concrete two-period year the first summary row's growth
is NaN (not 0), and the volume-weighted annual gross margin (27.5) differs
from the naive average of the monthly margins (35). -/
theorem calculate_annual_summary_spec_witness :
    ((calculate_annual_summary [c3period, c6p2]).headD default).revenue_growth =
      PyVal.nan ∧
    (annualBase [c3period, c6p2] 2024).gross_margin = PyVal.fin (55 / 2) ∧
    PyVal.fin (55 / 2) ≠ PyVal.fin (((50 : ℚ) + 20) / 2) := by
  refine ⟨(calculate_annual_summary_spec [c3period, c6p2] (by simp)).2.1, ?_, ?_⟩
  · norm_num [annualBase, groupOf, sumBy, c3period, c6p2, List.filter, PyVal.div,
      PyVal.mul, PyVal.round2, round2q, roundHalfEven, PyVal.fin.injEq]
  · simp only [ne_eq, PyVal.fin.injEq]
    norm_num

/-! ## C8: CAGR round-trip -/

theorem headD_map_range_q (f : ℕ → ℚ) (n : ℕ) (hn : n ≠ 0) :
    ((List.range n).map f).headD 0 = f 0 := by
  obtain ⟨m, rfl⟩ := Nat.exists_eq_succ_of_ne_zero hn
  rw [List.range_succ_eq_map]
  simp

theorem getLastD_map_range_q (f : ℕ → ℚ) (n : ℕ) (hn : n ≠ 0) :
    ((List.range n).map f).getLastD 0 = f (n - 1) := by
  obtain ⟨m, rfl⟩ := Nat.exists_eq_succ_of_ne_zero hn
  rw [List.range_succ, List.map_append, List.map_cons, List.map_nil, List.getLastD_concat]
  simp

/-- C8: the cagr of calculate_growth_projections is 0 with fewer than 2
annual points, and on a series whose annual revenue totals grow at exactly
rate r per year it recovers exactly r. -/
theorem calculate_growth_projections_cagr_spec (df : List Period) (a r : ℚ) (n : ℕ)
    (hA : annualRevenueTotals df = (List.range n).map (fun j => a * (1 + r) ^ j))
    (hn : 2 ≤ n) (ha : 0 < a) (hr : 0 < 1 + r) :
    growthProjections_cagr df = (r : ℝ) ∧
    ∀ l : List ℚ, l.length < 2 → cagrOf l = 0 := by
  constructor
  · rw [growthProjections_cagr, hA, cagrOf]
    have hlen : (((List.range n).map (fun j => a * (1 + r) ^ j)).length) = n := by simp
    rw [hlen, if_pos hn,
      getLastD_map_range_q _ n (by omega), headD_map_range_q _ n (by omega)]
    obtain ⟨m, rfl⟩ : ∃ m, n = m + 1 := ⟨n - 1, by omega⟩
    have hm : 1 ≤ m := by omega
    have hm0 : ((m : ℝ)) ≠ 0 := by
      exact_mod_cast Nat.pos_iff_ne_zero.mp (by omega)
    have hb : (0 : ℝ) < 1 + (r : ℝ) := by exact_mod_cast hr
    have ha' : ((a : ℝ)) ≠ 0 := by exact_mod_cast ha.ne'
    simp only [Nat.add_sub_cancel, pow_zero, mul_one]
    push_cast
    rw [mul_div_cancel_left₀ _ ha']
    have hcast : ((m : ℝ) + 1 - 1) = (m : ℝ) := by ring
    rw [hcast, ← Real.rpow_natCast (1 + (r : ℝ)) m, ← Real.rpow_mul (le_of_lt hb),
      mul_one_div, div_self hm0, Real.rpow_one]
    ring
  · intro l hl
    rw [cagrOf, if_neg (by omega)]

def c8p2 : Period := { c3period with year := 2025, revenue := 200 }

/-- C8 witness: two annual totals 100 and 200 (growth rate exactly 1 per
year, i.e. 100 percent) give cagr exactly 1. -/
theorem calculate_growth_projections_cagr_spec_witness :
    growthProjections_cagr [c3period, c8p2] = ((1 : ℚ) : ℝ) := by
  refine (calculate_growth_projections_cagr_spec [c3period, c8p2] 100 1 2 ?_
    (by norm_num) (by norm_num) (by norm_num)).1
  norm_num [annualRevenueTotals, yearsSorted, dedupNats, sortNats, insertSorted, groupOf,
    sumBy, c3period, c8p2, List.filter_cons, List.filter_nil, List.range_succ,
    List.range_zero, show ((2025 : ℕ) != 2024) = true from rfl,
    show ((2024 : ℕ) == 2024) = true from rfl, show ((2025 : ℕ) == 2024) = false from rfl,
    show ((2024 : ℕ) == 2025) = false from rfl, show ((2025 : ℕ) == 2025) = true from rfl]
